import Mathlib

/-!
# Verification of the `runner-controller` reconciling scheduler

Shallow embedding, in Lean 4, of the parts of the `runner-controller`
repository that the specification's claims are about:

* `src/state.rs` — the durable State Index (`ContainerState`, `StateDb`
  operations) modelled as an association list of serialized records;
* `src/listener.rs` — the scheduler (`labels_match`, `cleanup_container_full`,
  `process_queued_jobs`, the `run` loop error handling);
* `src/github/client.rs` — the CI API client retry loops (`get`, `post`,
  `delete`);
* `src/github/types.rs` — `Job` and its derived predicates;
* `src/http.rs` — the `GET /status` handler.

The sandbox driver (`src/container.rs`, the `ContainerManager`) is not part of
the sources; where a claim depends on it, the driver is modelled from the
specification (§3 "Derived identity rule", §4.C "Sandbox Driver") and the
definitions say so in their doc comments.

I/O effects (HTTP responses from the CI service, success or failure of driver
calls) are inputs of the embedded functions: a function of the attempt number
for the retry loops, `Except` values for fallible steps, a boolean oracle for
sandbox launches.  Machine integers (`u64`, `usize`) are modelled as `Nat`;
the only subtraction the claims touch is `u64::saturating_sub`, which is
exactly `Nat` truncated subtraction.
-/

namespace RunnerController

/-! ## State Index records (`src/state.rs`) -/

/-- `ContainerState` from `src/state.rs`: the one persisted record, binding a
sandbox to the job it was launched for (`slot` stores the job id, spec §9) and
its creation time in seconds since the epoch. -/
structure ContainerState where
  slot : Nat
  started_at : Nat
deriving Repr, DecidableEq

/-- `ContainerState::running_seconds` from `src/state.rs`: elapsed seconds
since `started_at`, computed with `u64::saturating_sub`, which on `Nat` is
truncated subtraction.  The current clock reading is an explicit argument. -/
def ContainerState.running_seconds (s : ContainerState) (now : Nat) : Nat :=
  now - s.started_at

/-- Serialization of a `ContainerState` (`serde_json::to_vec` in
`src/state.rs`), modelled as the list of the record's named numeric fields. -/
def serializeState (s : ContainerState) : List (String × Nat) :=
  [("slot", s.slot), ("started_at", s.started_at)]

/-- Deserialization of a `ContainerState` (`serde_json::from_slice` in
`src/state.rs`): both fields must be present, otherwise the read fails. -/
def deserializeState (fields : List (String × Nat)) : Option ContainerState :=
  match fields.lookup "slot", fields.lookup "started_at" with
  | some s, some t => some ⟨s, t⟩
  | _, _ => none

/-- The `containers` table of `state.redb`: sandbox name → serialized record.
Modelled as an association list in which at most the first binding of a key is
visible. -/
abbrev StateDb := List (String × List (String × Nat))

/-- Point lookup in the table, first binding wins. -/
def dbLookup (db : StateDb) (name : String) : Option (List (String × Nat)) :=
  match db with
  | [] => none
  | (k, v) :: rest => if k = name then some v else dbLookup rest name

/-- `StateDb::put_container` from `src/state.rs`: insert-or-replace of the
serialized record under the sandbox name. -/
def put_container (db : StateDb) (name : String) (st : ContainerState) : StateDb :=
  (name, serializeState st) :: db.filter (fun e => e.1 ≠ name)

/-- `StateDb::get_container` from `src/state.rs`: point read followed by
deserialization. -/
def get_container (db : StateDb) (name : String) : Option ContainerState :=
  (dbLookup db name).bind deserializeState

/-- `StateDb::remove_container` from `src/state.rs`: delete the binding; the
underlying `table.remove` is a no-op when the key is absent, so the operation
is total. -/
def remove_container (db : StateDb) (name : String) : StateDb :=
  db.filter (fun e => e.1 ≠ name)

/-- `StateDb::list_containers` from `src/state.rs`: enumerate the table,
deserializing every record; an unparseable record fails the whole listing. -/
def list_containers (db : StateDb) : Except String (List (String × ContainerState)) :=
  match db with
  | [] => .ok []
  | (name, fields) :: rest =>
    match deserializeState fields with
    | none => .error "deserialize"
    | some st =>
      match list_containers rest with
      | .error e => .error e
      | .ok tl => .ok ((name, st) :: tl)

/-! ## Jobs and the capability match (`src/github/types.rs`, `src/listener.rs`) -/

/-- `Job` from `src/github/types.rs`. -/
structure Job where
  id : Nat
  status : String
  labels : List String
  runner_id : Option Nat
deriving Repr, DecidableEq

/-- `Job::is_waiting` from `src/github/types.rs`. -/
def Job.is_waiting (j : Job) : Bool :=
  j.status = "queued" || j.status = "waiting" || j.status = "pending"

/-- `Job::has_runner` from `src/github/types.rs`. -/
def Job.has_runner (j : Job) : Bool :=
  j.runner_id.isSome && j.runner_id != some 0

/-- `JobListener::labels_match` from `src/listener.rs`: every job label must be
a member of the runner label set (the Rust builds a `HashSet` of the runner
labels and early-returns `false` on the first job label outside it). -/
def labels_match (job_labels runner_labels : List String) : Bool :=
  job_labels.all (fun l => runner_labels.contains l)

/-! ## The derived sandbox name and its injectivity

`ContainerManager::job_id_to_container_name` lives in `src/container.rs`,
which is not among the sources; per spec §3 the mapping is
`name = "ci-runner-" ‖ decimal(job_id)`. -/

/-- Modelled from the spec: `ContainerManager::job_id_to_container_name`
(`src/container.rs`, absent from the sources).  Spec §3, Derived identity
rule: `name = "ci-runner-" ‖ decimal(job_id)`; `decimal` is `Nat.repr`. -/
def job_id_to_container_name (job_id : Nat) : String :=
  "ci-runner-" ++ Nat.repr job_id

/-- Numeric value of a decimal digit character. -/
def digitVal (c : Char) : Nat := c.toNat - 48

/-- Value of a string of decimal digit characters, most significant first. -/
def valOfDigits : List Char → Nat
  | [] => 0
  | c :: cs => digitVal c * 10 ^ cs.length + valOfDigits cs

/-! ## Full cleanup (`JobListener::cleanup_container_full`, `src/listener.rs`)

The three cleanup actions are external effects; each is an input of the
model as an `Except` outcome.  The model returns the trace of steps that were
attempted, in order, together with the result surfaced to the caller. -/

/-- One of the three steps of a full cleanup. -/
inductive CleanupStep where
  | ciDeregister
  | destroyContainer
  | removeState
deriving Repr, DecidableEq

/-- `JobListener::cleanup_container_full` from `src/listener.rs`: deregister
from the CI service (`if let Err(e) = … { warn!(…) }` — the outcome is logged
and discarded), then destroy the container (`?` — surfaced), then remove the
state record (`?` — surfaced).  Arguments are the outcomes of the three
external calls; the result is the attempted-step trace and the returned
value. -/
def cleanup_container_full (ghDelete destroy remove : Except String Unit) :
    List CleanupStep × Except String Unit :=
  -- step (i): github.delete_runner_by_name — failure ignored
  match ghDelete with
  | _ =>
    -- step (ii): containers.cleanup_container — failure surfaced by `?`
    match destroy with
    | .error e => ([.ciDeregister, .destroyContainer], .error e)
    | .ok () =>
      -- step (iii): state_db.remove_container — failure surfaced by `?`
      match remove with
      | .error e => ([.ciDeregister, .destroyContainer, .removeState], .error e)
      | .ok () => ([.ciDeregister, .destroyContainer, .removeState], .ok ())

/-! ## CI API client retry loops (`src/github/client.rs`) -/

/-- Outcome of one HTTP send: a status code, or a transport error
(`reqwest::Error`). -/
inductive Outcome where
  | status (code : Nat)
  | transport
deriving Repr, DecidableEq

/-- What one attempt of a retry loop does with its outcome. -/
inductive AttemptAction where
  | succeed
  | failUnauthorized
  | failNotFound
  | retry
deriving Repr, DecidableEq

/-- Result of a whole client operation: success or a classified failure, each
remembering the attempt (1-based) at which the loop ended, or retry
exhaustion. -/
inductive ApiResult where
  | ok (attempt : Nat)
  | unauthorized (attempt : Nat)
  | notFound (attempt : Nat)
  | exhausted
deriving Repr, DecidableEq

/-- The status match of `GitHubClient::get` (`src/github/client.rs` lines
65–102): only `200 OK` succeeds; `401` and `404` bail out immediately; `403`,
`429` and every other status, like a transport error, sleep and retry. -/
def get_classify : Outcome → AttemptAction
  | .status 200 => .succeed
  | .status 401 => .failUnauthorized
  | .status 404 => .failNotFound
  | .status _ => .retry
  | .transport => .retry

/-- The status match of `GitHubClient::post` (`src/github/client.rs` lines
136–159): `200` or `201` succeed; `401` bails out; everything else —
including `404`, which has no arm of its own — sleeps and retries. -/
def post_classify : Outcome → AttemptAction
  | .status 200 => .succeed
  | .status 201 => .succeed
  | .status 401 => .failUnauthorized
  | .status _ => .retry
  | .transport => .retry

/-- The status match of `GitHubClient::delete` (`src/github/client.rs` lines
193–218): `204` or `200` succeed; `404` is "already deleted, that's fine" and
also succeeds; `401` bails out; everything else sleeps and retries. -/
def delete_classify : Outcome → AttemptAction
  | .status 204 => .succeed
  | .status 200 => .succeed
  | .status 404 => .succeed
  | .status 401 => .failUnauthorized
  | .status _ => .retry
  | .transport => .retry

/-- `MAX_RETRIES` from `src/github/client.rs`. -/
def MAX_RETRIES : Nat := 3

/-- `INITIAL_BACKOFF_MS` from `src/github/client.rs`. -/
def INITIAL_BACKOFF_MS : Nat := 1000

/-- The shared shape of the three retry loops
(`for attempt in 1..=MAX_RETRIES { … }` with `backoff_ms *= 2` after every
sleep).  `responses` gives the outcome of the send at each attempt; `fuel`
counts the attempts left; the returned list records every sleep, in
milliseconds, in order (the code sleeps before `continue`, also on the last
attempt). -/
def apiLoop (classify : Outcome → AttemptAction) (responses : Nat → Outcome) :
    Nat → Nat → Nat → List Nat → ApiResult × List Nat
  | 0, _, _, sleeps => (.exhausted, sleeps)
  | fuel + 1, attempt, backoff, sleeps =>
    match classify (responses attempt) with
    | .succeed => (.ok attempt, sleeps)
    | .failUnauthorized => (.unauthorized attempt, sleeps)
    | .failNotFound => (.notFound attempt, sleeps)
    | .retry => apiLoop classify responses fuel (attempt + 1) (backoff * 2) (sleeps ++ [backoff])

/-- `GitHubClient::get` from `src/github/client.rs`, as a function of the
per-attempt HTTP outcomes. -/
def ghGet (responses : Nat → Outcome) : ApiResult × List Nat :=
  apiLoop get_classify responses MAX_RETRIES 1 INITIAL_BACKOFF_MS []

/-- `GitHubClient::post` from `src/github/client.rs`. -/
def ghPost (responses : Nat → Outcome) : ApiResult × List Nat :=
  apiLoop post_classify responses MAX_RETRIES 1 INITIAL_BACKOFF_MS []

/-- `GitHubClient::delete` from `src/github/client.rs`. -/
def ghDelete (responses : Nat → Outcome) : ApiResult × List Nat :=
  apiLoop delete_classify responses MAX_RETRIES 1 INITIAL_BACKOFF_MS []

/-! ## The dispatch phase (`JobListener::process_queued_jobs`, `src/listener.rs`)

The sandbox driver (`ContainerManager`, `src/container.rs`) is absent from the
sources; per spec §4.C, `list()` is the live inventory, `count_active()` is
`len(list())`, and a successful `launch(job_id, credential)` adds a sandbox
named `job_id_to_name(job_id)` to the inventory.  A failed
`spawn_container_for_job` (credential minting, launch, or state write) is
modelled as leaving the world unchanged — the caller logs the error and moves
to the next candidate. -/

/-- The mutable world the dispatch phase acts on: the live sandbox inventory,
as the driver reports it, and the State Index table. -/
structure World where
  containers : List String
  db : StateDb
deriving Repr, DecidableEq

/-- Accumulated dispatch state: the world, the job ids launched so far in this
pass, and how many launches have been attempted (index into the success
oracle). -/
structure DispatchState where
  containers : List String
  db : StateDb
  launched : List Nat
  attempts : Nat
deriving Repr, DecidableEq

/-- The per-candidate loop of `JobListener::process_queued_jobs`
(`src/listener.rs` lines 190–246).  At the top of each iteration
`count_active()` is re-read and the loop breaks at the cap; then the candidate
is skipped when it already has a runner, is not waiting, fails the label
match, its derived name is in the `existing` snapshot, or the State Index has
a record for that name; otherwise `spawn_container_for_job` runs — `spawnOk`
says whether the attempt succeeds, and a success adds the container to the
inventory and records the assignment (`put_container`) at time `now`. -/
def process_jobs (max_concurrent : Nat) (runner_labels : List String)
    (existing : List String) (spawnOk : Nat → Bool) (now : Nat) :
    DispatchState → List Job → DispatchState
  | s, [] => s
  | s, job :: rest =>
    if max_concurrent ≤ s.containers.length then s
    else if job.has_runner then
      process_jobs max_concurrent runner_labels existing spawnOk now s rest
    else if !job.is_waiting then
      process_jobs max_concurrent runner_labels existing spawnOk now s rest
    else if !labels_match job.labels runner_labels then
      process_jobs max_concurrent runner_labels existing spawnOk now s rest
    else if job_id_to_container_name job.id ∈ existing then
      process_jobs max_concurrent runner_labels existing spawnOk now s rest
    else if (get_container s.db (job_id_to_container_name job.id)).isSome then
      process_jobs max_concurrent runner_labels existing spawnOk now s rest
    else if spawnOk s.attempts then
      process_jobs max_concurrent runner_labels existing spawnOk now
        { containers := s.containers ++ [job_id_to_container_name job.id],
          db := put_container s.db (job_id_to_container_name job.id) ⟨job.id, now⟩,
          launched := s.launched ++ [job.id],
          attempts := s.attempts + 1 } rest
    else
      process_jobs max_concurrent runner_labels existing spawnOk now
        { s with attempts := s.attempts + 1 } rest

/-- `JobListener::process_queued_jobs` from `src/listener.rs`: skip the phase
entirely when `count_active()` is already at the cap; otherwise snapshot the
inventory once as `existing` and run the candidate loop over the gathered job
list. -/
def process_queued_jobs (max_concurrent : Nat) (runner_labels : List String)
    (spawnOk : Nat → Bool) (now : Nat) (w : World) (all_jobs : List Job) :
    DispatchState :=
  if max_concurrent ≤ w.containers.length then
    ⟨w.containers, w.db, [], 0⟩
  else
    process_jobs max_concurrent runner_labels w.containers spawnOk now
      ⟨w.containers, w.db, [], 0⟩ all_jobs

/-! ## The run loop (`JobListener::run`, `src/listener.rs`) and the exit code -/

/-- The tick sequence of `JobListener::run` (`src/listener.rs` lines
277–304): each tick's two phase results are handled by
`if let Err(e) = … { warn!(error = %e, …) }` — logged and discarded — and the
loop proceeds to the next tick; the loop ends only on the shutdown signal,
here the end of the tick list, returning `Ok(())`. -/
def run_ticks : List (Except String Unit × Except String Unit) → Except String Unit
  | [] => .ok ()
  | _ :: rest => run_ticks rest

/-- `JobListener::run` from `src/listener.rs`: `reconcile_on_startup` is
propagated with `?`; then the tick loop runs. -/
def listener_run (reconcile : Except String Unit)
    (ticks : List (Except String Unit × Except String Unit)) : Except String Unit :=
  match reconcile with
  | .error e => .error e
  | .ok () => run_ticks ticks

/-- The process exit status as `main` (`src/main.rs`) derives it from the
result of `listener.run()`: `Ok` exits 0, `Err` exits nonzero. -/
def main_exit_code (runResult : Except String Unit) : Nat :=
  match runResult with
  | .ok () => 0
  | .error _ => 1

/-! ## The `GET /status` handler (`status`, `src/http.rs`) -/

/-- `ContainerInfo` from `src/http.rs`: one element of `active_containers`. -/
structure ContainerInfo where
  name : String
  job_id : Nat
  running_seconds : Nat
deriving Repr, DecidableEq

/-- `StatusResponse` from `src/http.rs`: the JSON document served by
`GET /status`. -/
structure StatusResponse where
  active_containers : List ContainerInfo
  max_concurrent : Nat
  poll_interval_seconds : Nat
  job_timeout_seconds : Nat
  uptime_seconds : Nat
deriving Repr, DecidableEq

/-- The configuration part of `AppState` from `src/http.rs`. -/
structure AppState where
  max_concurrent : Nat
  poll_interval_seconds : Nat
  job_timeout_seconds : Nat
deriving Repr, DecidableEq

/-- An HTTP reply of the status route: `200 OK` with the JSON body, or
`500 Internal Server Error` when the listing fails. -/
inductive StatusReply where
  | ok (body : StatusResponse)
  | internalError
deriving Repr, DecidableEq

/-- The `status` handler from `src/http.rs`: list the State Index (a failure
becomes 500), map each record to a `ContainerInfo` carrying the persisted
record's job id (the field `state.rs` names `slot` and `http.rs` reads as
`job_id` — spec §9 identifies the two) and `running_seconds()` at the current
clock, and attach the static configuration and the uptime. -/
def statusHandler (st : AppState) (db : StateDb) (now uptime : Nat) : StatusReply :=
  match list_containers db with
  | .error _ => .internalError
  | .ok containers =>
    .ok
      { active_containers :=
          containers.map fun e =>
            { name := e.1, job_id := e.2.slot,
              running_seconds := e.2.running_seconds now }
        max_concurrent := st.max_concurrent
        poll_interval_seconds := st.poll_interval_seconds
        job_timeout_seconds := st.job_timeout_seconds
        uptime_seconds := uptime }

/-- The Phase 1 timeout test of `JobListener::check_containers`
(`src/listener.rs` line 107): `running_secs > timeout_secs`. -/
def timeout_fires (s : ContainerState) (now timeout_secs : Nat) : Bool :=
  s.running_seconds now > timeout_secs

/-! # Theorems

## The decimal name mapping is injective -/

theorem digitVal_digitChar (d : Nat) (h : d < 10) :
    digitVal (Nat.digitChar d) = d := by
  interval_cases d <;> decide

theorem valOfDigits_toDigitsCore (fuel : Nat) :
    ∀ n acc, n + 1 ≤ fuel →
      valOfDigits (Nat.toDigitsCore 10 fuel n acc) =
        n * 10 ^ acc.length + valOfDigits acc := by
  induction fuel with
  | zero => intro n acc h; omega
  | succ fuel ih =>
    intro n acc _
    show valOfDigits
        (if n / 10 = 0 then Nat.digitChar (n % 10) :: acc
         else Nat.toDigitsCore 10 fuel (n / 10) (Nat.digitChar (n % 10) :: acc)) = _
    by_cases hz : n / 10 = 0
    · have hn : n < 10 := by omega
      simp only [hz, if_pos]
      show digitVal (Nat.digitChar (n % 10)) * 10 ^ acc.length + valOfDigits acc = _
      rw [digitVal_digitChar (n % 10) (Nat.mod_lt n (by norm_num)),
        Nat.mod_eq_of_lt hn]
    · have hn10 : 10 ≤ n := by
        by_contra hlt
        exact hz (Nat.div_eq_of_lt (by omega))
      have hrec : n / 10 + 1 ≤ fuel := by
        have h1 : n / 10 < n := Nat.div_lt_self (by omega) (by norm_num)
        omega
      simp only [hz, if_neg, if_false]
      rw [ih (n / 10) (Nat.digitChar (n % 10) :: acc) hrec]
      show n / 10 * 10 ^ (acc.length + 1) +
          (digitVal (Nat.digitChar (n % 10)) * 10 ^ acc.length + valOfDigits acc) = _
      rw [digitVal_digitChar (n % 10) (Nat.mod_lt n (by omega))]
      have hpow : 10 ^ (acc.length + 1) = 10 ^ acc.length * 10 := by ring
      have hdm : 10 * (n / 10) + n % 10 = n := Nat.div_add_mod n 10
      calc n / 10 * 10 ^ (acc.length + 1) + (n % 10 * 10 ^ acc.length + valOfDigits acc)
          = (10 * (n / 10) + n % 10) * 10 ^ acc.length + valOfDigits acc := by
            rw [hpow]; ring
        _ = n * 10 ^ acc.length + valOfDigits acc := by rw [hdm]

/-- `valOfDigits` parses `Nat.repr` back: the decimal representation has a
computable left inverse. -/
theorem valOfDigits_repr (n : Nat) : valOfDigits (Nat.repr n).data = n := by
  show valOfDigits (Nat.toDigits 10 n).asString.data = n
  have : (Nat.toDigits 10 n).asString.data = Nat.toDigits 10 n := rfl
  rw [this]
  show valOfDigits (Nat.toDigitsCore 10 (n + 1) n []) = n
  rw [valOfDigits_toDigitsCore (n + 1) n [] (Nat.le_refl _)]
  simp [valOfDigits]

theorem job_id_to_container_name_injective :
    Function.Injective job_id_to_container_name := by
  intro a b h
  have hdata : ("ci-runner-" ++ Nat.repr a).data = ("ci-runner-" ++ Nat.repr b).data := by
    rw [show ("ci-runner-" ++ Nat.repr a) = job_id_to_container_name a from rfl,
      show ("ci-runner-" ++ Nat.repr b) = job_id_to_container_name b from rfl, h]
  rw [String.data_append, String.data_append] at hdata
  have hrepr : (Nat.repr a).data = (Nat.repr b).data :=
    List.append_cancel_left hdata
  calc a = valOfDigits (Nat.repr a).data := (valOfDigits_repr a).symm
    _ = valOfDigits (Nat.repr b).data := by rw [hrepr]
    _ = b := valOfDigits_repr b


/-! ## State Index helper lemmas -/

theorem deserialize_serialize (st : ContainerState) :
    deserializeState (serializeState st) = some st := rfl

theorem dbLookup_cons (k : String) (v : List (String × Nat)) (rest : StateDb) (n : String) :
    dbLookup ((k, v) :: rest) n = if k = n then some v else dbLookup rest n := rfl

theorem remove_container_cons (k : String) (v : List (String × Nat)) (rest : StateDb)
    (n : String) :
    remove_container ((k, v) :: rest) n =
      if k = n then remove_container rest n else (k, v) :: remove_container rest n := by
  by_cases hk : k = n
  · rw [if_pos hk]
    exact List.filter_cons_of_neg (by simp [hk])
  · rw [if_neg hk]
    exact List.filter_cons_of_pos (by simp [hk])

theorem dbLookup_remove_self (db : StateDb) (n : String) :
    dbLookup (remove_container db n) n = none := by
  induction db with
  | nil => rfl
  | cons hd tl ih =>
    obtain ⟨k, v⟩ := hd
    rw [remove_container_cons]
    by_cases hk : k = n
    · rw [if_pos hk]; exact ih
    · rw [if_neg hk, dbLookup_cons, if_neg hk]; exact ih

theorem dbLookup_remove_other (db : StateDb) (n m : String) (h : m ≠ n) :
    dbLookup (remove_container db n) m = dbLookup db m := by
  induction db with
  | nil => rfl
  | cons hd tl ih =>
    obtain ⟨k, v⟩ := hd
    rw [remove_container_cons, dbLookup_cons]
    by_cases hk : k = n
    · rw [if_pos hk, if_neg (fun hkm : k = m => h (hkm ▸ hk ▸ rfl))]
      exact ih
    · rw [if_neg hk, dbLookup_cons]
      by_cases hm : k = m
      · rw [if_pos hm, if_pos hm]
      · rw [if_neg hm, if_neg hm]; exact ih

theorem get_put_self (db : StateDb) (n : String) (st : ContainerState) :
    get_container (put_container db n st) n = some st := by
  show (dbLookup ((n, serializeState st) :: remove_container db n) n).bind deserializeState
      = some st
  rw [dbLookup_cons, if_pos rfl]
  exact deserialize_serialize st

theorem get_put_other (db : StateDb) (n m : String) (st : ContainerState) (h : m ≠ n) :
    get_container (put_container db n st) m = get_container db m := by
  show (dbLookup ((n, serializeState st) :: remove_container db n) m).bind deserializeState
      = get_container db m
  rw [dbLookup_cons, if_neg (fun hnm : n = m => h hnm.symm)]
  show (dbLookup (remove_container db n) m).bind deserializeState = _
  rw [dbLookup_remove_other db n m h]
  rfl

theorem get_remove_self (db : StateDb) (n : String) :
    get_container (remove_container db n) n = none := by
  show (dbLookup (remove_container db n) n).bind deserializeState = none
  rw [dbLookup_remove_self]
  rfl

theorem remove_absent_noop (db : StateDb) (n : String) (h : dbLookup db n = none) :
    remove_container db n = db := by
  induction db with
  | nil => rfl
  | cons hd tl ih =>
    obtain ⟨k, v⟩ := hd
    rw [dbLookup_cons] at h
    by_cases hk : k = n
    · rw [if_pos hk] at h; exact absurd h (by simp)
    · rw [if_neg hk] at h
      rw [remove_container_cons, if_neg hk, ih h]

/-! ## C9 — State Index round-trip laws -/

/-- C9: State Index round-trip laws: for every assignment, `put_container`
followed by `get_container` at the same name returns the assignment unchanged
(the record survives serialization and deserialization); `remove_container`
followed by `get_container` returns absent; and removing a name that was never
present succeeds silently, leaving the table unchanged. -/
theorem state_index_roundtrip (db : StateDb) (a : ContainerState) (name n : String)
    (habsent : dbLookup db n = none) :
    get_container (put_container db name a) name = some a
    ∧ get_container (remove_container db name) name = none
    ∧ remove_container db n = db := by
  exact ⟨get_put_self db name a, get_remove_self db name, remove_absent_noop db n habsent⟩

/-- C9 witness: the round-trip laws applied to a concrete assignment on a
concrete table. -/
theorem state_index_roundtrip_witness :
    get_container (put_container [("ci-runner-1", [("slot", 1), ("started_at", 5)])]
        "ci-runner-42" ⟨42, 100⟩) "ci-runner-42" = some ⟨42, 100⟩
    ∧ get_container (remove_container [("ci-runner-1", [("slot", 1), ("started_at", 5)])]
        "ci-runner-42") "ci-runner-42" = none
    ∧ remove_container [("ci-runner-1", [("slot", 1), ("started_at", 5)])] "absent"
        = [("ci-runner-1", [("slot", 1), ("started_at", 5)])] :=
  state_index_roundtrip [("ci-runner-1", [("slot", 1), ("started_at", 5)])]
    ⟨42, 100⟩ "ci-runner-42" "absent" (by decide)

/-! ## C7 — the capability match is the subset test -/

/-- C7: `labels_match job_labels runner_labels` is true iff every label of the
job is a member of the runner label list; an empty job label list matches any
capability set, and a nonempty job label list never matches an empty
capability set. -/
theorem labels_match_subset (job_labels runner_labels : List String) :
    (labels_match job_labels runner_labels = true ↔ ∀ l ∈ job_labels, l ∈ runner_labels)
    ∧ labels_match [] runner_labels = true
    ∧ (job_labels ≠ [] → labels_match job_labels [] = false) := by
  refine ⟨?_, rfl, ?_⟩
  · simp [labels_match, List.all_eq_true, List.elem_iff]
  · intro hne
    match job_labels with
    | [] => exact absurd rfl hne
    | l :: ls => simp [labels_match]

/-- C7 witness: the subset characterization applied to the label lists of the
repository's own unit tests. -/
theorem labels_match_subset_witness :
    (labels_match ["self-hosted"] ["self-hosted", "linux", "x64"] = true
      ↔ ∀ l ∈ ["self-hosted"], l ∈ ["self-hosted", "linux", "x64"])
    ∧ labels_match [] ["self-hosted", "linux", "x64"] = true
    ∧ (["self-hosted"] ≠ ([] : List String) → labels_match ["self-hosted"] [] = false) :=
  labels_match_subset ["self-hosted"] ["self-hosted", "linux", "x64"]

/-! ## C10 — `running_seconds` saturates, so a future `started_at` never
times out -/

/-- C10: `ContainerState::running_seconds` subtracts with saturation, so for a
record whose `started_at` is at or ahead of the current clock it returns `0`
rather than underflowing, and consequently the Phase 1 timeout test
`running_secs > timeout_secs` cannot fire for such a record. -/
theorem running_seconds_saturates (s : ContainerState) (now timeout_secs : Nat)
    (h : now ≤ s.started_at) :
    s.running_seconds now = 0 ∧ timeout_fires s now timeout_secs = false := by
  have hz : s.running_seconds now = 0 := Nat.sub_eq_zero_of_le h
  refine ⟨hz, ?_⟩
  simp [timeout_fires, hz]

/-- C10 witness: a record started (per a backward clock step) 50 seconds in
the future never trips a timeout of 0 seconds. -/
theorem running_seconds_saturates_witness :
    ContainerState.running_seconds ⟨7, 100⟩ 50 = 0
    ∧ timeout_fires ⟨7, 100⟩ 50 0 = false :=
  running_seconds_saturates ⟨7, 100⟩ 50 0 (by decide)

/-! ## C3 — full cleanup: step order and failure policy -/

/-- C3: `cleanup_container_full` performs CI deregister, then driver destroy,
then State-Index remove, in that order; the CI deregister outcome is ignored
(it never changes what runs next or the returned result), while a destroy
failure is surfaced and stops the remove step, and a remove failure is
surfaced after both prior steps ran. -/
theorem cleanup_full_policy (g g' : Except String Unit) (e : String) :
    (∀ d r, cleanup_container_full g d r = cleanup_container_full g' d r)
    ∧ (∀ r, cleanup_container_full g (Except.error e) r
        = ([CleanupStep.ciDeregister, CleanupStep.destroyContainer], Except.error e))
    ∧ cleanup_container_full g (Except.ok ()) (Except.error e)
        = ([CleanupStep.ciDeregister, CleanupStep.destroyContainer,
            CleanupStep.removeState], Except.error e)
    ∧ cleanup_container_full g (Except.ok ()) (Except.ok ())
        = ([CleanupStep.ciDeregister, CleanupStep.destroyContainer,
            CleanupStep.removeState], Except.ok ()) := by
  refine ⟨fun d r => rfl, fun r => rfl, rfl, rfl⟩

/-! ## Retry loop helper lemmas -/

theorem backoff_sleeps_cons (backoff n : Nat) (sleeps : List Nat) :
    (sleeps ++ [backoff]) ++ (List.range n).map (fun i => backoff * 2 * 2 ^ i)
      = sleeps ++ (List.range (n + 1)).map (fun i => backoff * 2 ^ i) := by
  rw [List.range_succ_eq_map, List.map_cons, List.map_map, pow_zero, mul_one,
    List.append_assoc, List.singleton_append]
  congr 2
  apply List.map_congr_left
  intro i _
  simp only [Function.comp_apply, pow_succ]
  ring

theorem apiLoop_all_retry (classify : Outcome → AttemptAction) (responses : Nat → Outcome) :
    ∀ (fuel attempt backoff : Nat) (sleeps : List Nat),
      (∀ a, attempt ≤ a → a < attempt + fuel → classify (responses a) = .retry) →
      apiLoop classify responses fuel attempt backoff sleeps =
        (.exhausted, sleeps ++ (List.range fuel).map fun i => backoff * 2 ^ i) := by
  intro fuel
  induction fuel with
  | zero => intro attempt backoff sleeps _; simp [apiLoop]
  | succ fuel ih =>
    intro attempt backoff sleeps h
    have h0 : classify (responses attempt) = .retry := h attempt (Nat.le_refl _) (by omega)
    show (match classify (responses attempt) with
      | .succeed => (ApiResult.ok attempt, sleeps)
      | .failUnauthorized => (ApiResult.unauthorized attempt, sleeps)
      | .failNotFound => (ApiResult.notFound attempt, sleeps)
      | .retry => apiLoop classify responses fuel (attempt + 1) (backoff * 2)
          (sleeps ++ [backoff])) = _
    rw [h0]
    rw [ih (attempt + 1) (backoff * 2) (sleeps ++ [backoff])
      (fun a ha hb => h a (by omega) (by omega))]
    rw [backoff_sleeps_cons]

theorem apiLoop_success (classify : Outcome → AttemptAction) (responses : Nat → Outcome) :
    ∀ (fuel attempt backoff k : Nat) (sleeps : List Nat),
      attempt ≤ k → k < attempt + fuel →
      (∀ a, attempt ≤ a → a < k → classify (responses a) = .retry) →
      classify (responses k) = .succeed →
      apiLoop classify responses fuel attempt backoff sleeps =
        (.ok k, sleeps ++ (List.range (k - attempt)).map fun i => backoff * 2 ^ i) := by
  intro fuel
  induction fuel with
  | zero => intro attempt backoff k sleeps h1 h2 _ _; omega
  | succ fuel ih =>
    intro attempt backoff k sleeps h1 h2 hr hs
    show (match classify (responses attempt) with
      | .succeed => (ApiResult.ok attempt, sleeps)
      | .failUnauthorized => (ApiResult.unauthorized attempt, sleeps)
      | .failNotFound => (ApiResult.notFound attempt, sleeps)
      | .retry => apiLoop classify responses fuel (attempt + 1) (backoff * 2)
          (sleeps ++ [backoff])) = _
    by_cases hak : attempt = k
    · subst hak
      rw [hs]
      simp
    · have hlt : attempt < k := Nat.lt_of_le_of_ne h1 hak
      rw [hr attempt (Nat.le_refl _) hlt]
      rw [ih (attempt + 1) (backoff * 2) k (sleeps ++ [backoff]) (by omega) (by omega)
        (fun a ha hb => hr a (by omega) hb) hs]
      have hka : k - (attempt + 1) + 1 = k - attempt := by omega
      rw [backoff_sleeps_cons, hka]

theorem run_ticks_ok : ∀ ts, run_ticks ts = Except.ok () := by
  intro ts
  induction ts with
  | nil => rfl
  | cons _ rest ih => exact ih

/-! ## C4 — retry exhaustion after exactly 3 attempts -/

/-- C4 counterexample: responses carrying status `202 Accepted` — a 2xx
status, but not the expected `200 OK` — make `GitHubClient::get` retry and
exhaust all 3 attempts instead of returning the parsed result immediately. -/
theorem get_2xx_not_immediate_cex :
    ghGet (fun _ => Outcome.status 202) = (ApiResult.exhausted, [1000, 2000, 4000]) := rfl

/-- C4 (amended): every CI operation whose attempts keep classifying as
retriable (403, 429, other unexpected statuses such as 500, transport errors)
fails after exactly 3 attempts, sleeping 1000 ms, 2000 ms and 4000 ms
(initial backoff 1000 ms, doubled per attempt); a response carrying the
operation's expected success status — `200` for GET, `200` or `201` for POST,
`200` or `204` for DELETE — at attempt `k` returns immediately, having slept
only the `k - 1` earlier backoffs. -/
theorem retry_exhaustion (responses : Nat → Outcome) (k : Nat) :
    get_classify (Outcome.status 403) = AttemptAction.retry
    ∧ get_classify (Outcome.status 429) = AttemptAction.retry
    ∧ get_classify (Outcome.status 500) = AttemptAction.retry
    ∧ get_classify Outcome.transport = AttemptAction.retry
    ∧ ((∀ a, 1 ≤ a → a ≤ 3 → get_classify (responses a) = AttemptAction.retry) →
        ghGet responses = (ApiResult.exhausted, [1000, 2000, 4000]))
    ∧ ((∀ a, 1 ≤ a → a ≤ 3 → post_classify (responses a) = AttemptAction.retry) →
        ghPost responses = (ApiResult.exhausted, [1000, 2000, 4000]))
    ∧ ((∀ a, 1 ≤ a → a ≤ 3 → delete_classify (responses a) = AttemptAction.retry) →
        ghDelete responses = (ApiResult.exhausted, [1000, 2000, 4000]))
    ∧ (1 ≤ k → k ≤ 3 →
        (∀ a, 1 ≤ a → a < k → get_classify (responses a) = AttemptAction.retry) →
        responses k = Outcome.status 200 →
        ghGet responses = (ApiResult.ok k, (List.range (k - 1)).map fun i => 1000 * 2 ^ i))
    ∧ (1 ≤ k → k ≤ 3 →
        (∀ a, 1 ≤ a → a < k → post_classify (responses a) = AttemptAction.retry) →
        (responses k = Outcome.status 200 ∨ responses k = Outcome.status 201) →
        ghPost responses = (ApiResult.ok k, (List.range (k - 1)).map fun i => 1000 * 2 ^ i))
    ∧ (1 ≤ k → k ≤ 3 →
        (∀ a, 1 ≤ a → a < k → delete_classify (responses a) = AttemptAction.retry) →
        (responses k = Outcome.status 200 ∨ responses k = Outcome.status 204) →
        ghDelete responses = (ApiResult.ok k, (List.range (k - 1)).map fun i => 1000 * 2 ^ i)) := by
  refine ⟨rfl, rfl, rfl, rfl, fun h => ?_, fun h => ?_, fun h => ?_, fun hk1 hk3 hr hs => ?_,
    fun hk1 hk3 hr hs => ?_, fun hk1 hk3 hr hs => ?_⟩
  · rw [show ghGet responses = apiLoop get_classify responses 3 1 1000 [] from rfl,
      apiLoop_all_retry get_classify responses 3 1 1000 [] (fun a ha hb => h a ha (by omega))]
    rfl
  · rw [show ghPost responses = apiLoop post_classify responses 3 1 1000 [] from rfl,
      apiLoop_all_retry post_classify responses 3 1 1000 [] (fun a ha hb => h a ha (by omega))]
    rfl
  · rw [show ghDelete responses = apiLoop delete_classify responses 3 1 1000 [] from rfl,
      apiLoop_all_retry delete_classify responses 3 1 1000 [] (fun a ha hb => h a ha (by omega))]
    rfl
  · rw [show ghGet responses = apiLoop get_classify responses 3 1 1000 [] from rfl,
      apiLoop_success get_classify responses 3 1 1000 k [] hk1 (by omega) hr
        (by rw [hs]; rfl)]
    rfl
  · rw [show ghPost responses = apiLoop post_classify responses 3 1 1000 [] from rfl,
      apiLoop_success post_classify responses 3 1 1000 k [] hk1 (by omega) hr
        (by rcases hs with hs | hs <;> rw [hs] <;> rfl)]
    rfl
  · rw [show ghDelete responses = apiLoop delete_classify responses 3 1 1000 [] from rfl,
      apiLoop_success delete_classify responses 3 1 1000 k [] hk1 (by omega) hr
        (by rcases hs with hs | hs <;> rw [hs] <;> rfl)]
    rfl

/-- C4 witness: exhaustion after the 1 s, 2 s, 4 s backoffs on persistent 500,
transport error and 502 outcomes; an immediate GET return at attempt 2 — after
a single 1000 ms sleep — once attempt 2 answers `200 OK`; an immediate POST
return at attempt 2 on `201 Created`; and an immediate DELETE return at
attempt 3 — after the 1000 ms and 2000 ms sleeps — on `204 No Content`. -/
theorem retry_exhaustion_witness :
    ghGet (fun _ => Outcome.status 500) = (ApiResult.exhausted, [1000, 2000, 4000])
    ∧ ghPost (fun _ => Outcome.transport) = (ApiResult.exhausted, [1000, 2000, 4000])
    ∧ ghDelete (fun _ => Outcome.status 502) = (ApiResult.exhausted, [1000, 2000, 4000])
    ∧ ghGet (fun a => if a = 2 then Outcome.status 200 else Outcome.status 503)
        = (ApiResult.ok 2, [1000])
    ∧ ghPost (fun a => if a = 2 then Outcome.status 201 else Outcome.transport)
        = (ApiResult.ok 2, [1000])
    ∧ ghDelete (fun a => if a = 3 then Outcome.status 204 else Outcome.status 500)
        = (ApiResult.ok 3, [1000, 2000]) :=
  ⟨(retry_exhaustion (fun _ => Outcome.status 500) 1).2.2.2.2.1 (fun _ _ _ => rfl),
   (retry_exhaustion (fun _ => Outcome.transport) 1).2.2.2.2.2.1 (fun _ _ _ => rfl),
   (retry_exhaustion (fun _ => Outcome.status 502) 1).2.2.2.2.2.2.1 (fun _ _ _ => rfl),
   (retry_exhaustion (fun a => if a = 2 then Outcome.status 200 else Outcome.status 503)
      2).2.2.2.2.2.2.2.1 (by omega) (by omega)
      (fun a h1 h2 => by
        have ha : a = 1 := by omega
        subst ha; rfl)
      rfl,
   (retry_exhaustion (fun a => if a = 2 then Outcome.status 201 else Outcome.transport)
      2).2.2.2.2.2.2.2.2.1 (by omega) (by omega)
      (fun a h1 h2 => by
        have ha : a = 1 := by omega
        subst ha; rfl)
      (Or.inr rfl),
   (retry_exhaustion (fun a => if a = 3 then Outcome.status 204 else Outcome.status 500)
      3).2.2.2.2.2.2.2.2.2 (by omega) (by omega)
      (fun a h1 h2 => by
        interval_cases a <;> rfl)
      (Or.inr rfl)⟩

/-! ## C5 — how each operation treats a 404 response -/

/-- C5 counterexample: `GitHubClient::post` (credential minting) has no `404`
arm — the status falls into the catch-all retry arm, so persistent 404
responses lead to retry exhaustion after 3 attempts instead of the immediate
non-retriable failure the claim states. -/
theorem post_404_retried_cex :
    ghPost (fun _ => Outcome.status 404) = (ApiResult.exhausted, [1000, 2000, 4000]) := rfl

/-- C5 (amended): a 404 response is treated as success by the DELETE
operation; on the GET-based list operations it causes an immediate
non-retriable failure; but the POST-based credential minting retries a 404
like any other unexpected status, exhausting its 3 attempts. -/
theorem http404_policy (responses : Nat → Outcome) :
    (responses 1 = Outcome.status 404 → ghDelete responses = (ApiResult.ok 1, []))
    ∧ (responses 1 = Outcome.status 404 → ghGet responses = (ApiResult.notFound 1, []))
    ∧ post_classify (Outcome.status 404) = AttemptAction.retry
    ∧ ((∀ a, 1 ≤ a → a ≤ 3 → responses a = Outcome.status 404) →
        ghPost responses = (ApiResult.exhausted, [1000, 2000, 4000])) := by
  refine ⟨fun h => ?_, fun h => ?_, rfl, fun h => ?_⟩
  · show (match delete_classify (responses 1) with
      | .succeed => (ApiResult.ok 1, ([] : List Nat))
      | .failUnauthorized => (ApiResult.unauthorized 1, [])
      | .failNotFound => (ApiResult.notFound 1, [])
      | .retry => apiLoop delete_classify responses 2 2 2000 [1000]) = _
    rw [h]
    rfl
  · show (match get_classify (responses 1) with
      | .succeed => (ApiResult.ok 1, ([] : List Nat))
      | .failUnauthorized => (ApiResult.unauthorized 1, [])
      | .failNotFound => (ApiResult.notFound 1, [])
      | .retry => apiLoop get_classify responses 2 2 2000 [1000]) = _
    rw [h]
    rfl
  · rw [show ghPost responses = apiLoop post_classify responses 3 1 1000 [] from rfl,
      apiLoop_all_retry post_classify responses 3 1 1000 []
        (fun a ha hb => by rw [h a ha (by omega)]; rfl)]
    rfl

/-- C5 witness: the three operations evaluated on responses that always answer
404: DELETE succeeds at attempt 1, GET fails not-found at attempt 1, POST
exhausts its retries. -/
theorem http404_policy_witness :
    ghDelete (fun _ => Outcome.status 404) = (ApiResult.ok 1, [])
    ∧ ghGet (fun _ => Outcome.status 404) = (ApiResult.notFound 1, [])
    ∧ ghPost (fun _ => Outcome.status 404) = (ApiResult.exhausted, [1000, 2000, 4000]) :=
  ⟨(http404_policy (fun _ => Outcome.status 404)).1 rfl,
   (http404_policy (fun _ => Outcome.status 404)).2.1 rfl,
   (http404_policy (fun _ => Outcome.status 404)).2.2.2 (fun _ _ _ => rfl)⟩

/-! ## C6 — a 401 fails the operation at once, but the controller does not
terminate -/

/-- C6 counterexample: a tick whose dispatch phase surfaces the 401 error
string is logged and discarded by the run loop — the next tick still runs,
`JobListener::run` returns `Ok`, and the exit code `main` derives from it is
0, not nonzero as the claim states. -/
theorem unauthorized_nonfatal_cex :
    listener_run (Except.ok ())
        [(Except.ok (), Except.error "GitHub API unauthorized - check token"),
         (Except.ok (), Except.ok ())] = Except.ok ()
    ∧ main_exit_code (listener_run (Except.ok ())
        [(Except.ok (), Except.error "GitHub API unauthorized - check token"),
         (Except.ok (), Except.ok ())]) = 0 :=
  ⟨rfl, rfl⟩

/-- C6 (amended): a 401 response makes the CI operation fail on that very
attempt, with no further retries and no backoff sleeps; but the failure is not
fatal to the controller: the run loop logs each tick's phase errors and
continues, so `JobListener::run` returns `Ok` for every tick sequence and the
process exit code stays 0. -/
theorem unauthorized_policy (responses : Nat → Outcome)
    (ticks : List (Except String Unit × Except String Unit)) :
    (responses 1 = Outcome.status 401 →
      ghGet responses = (ApiResult.unauthorized 1, [])
      ∧ ghPost responses = (ApiResult.unauthorized 1, [])
      ∧ ghDelete responses = (ApiResult.unauthorized 1, []))
    ∧ listener_run (Except.ok ()) ticks = Except.ok ()
    ∧ main_exit_code (listener_run (Except.ok ()) ticks) = 0 := by
  refine ⟨fun h => ⟨?_, ?_, ?_⟩, run_ticks_ok ticks, ?_⟩
  · show (match get_classify (responses 1) with
      | .succeed => (ApiResult.ok 1, ([] : List Nat))
      | .failUnauthorized => (ApiResult.unauthorized 1, [])
      | .failNotFound => (ApiResult.notFound 1, [])
      | .retry => apiLoop get_classify responses 2 2 2000 [1000]) = _
    rw [h]
    rfl
  · show (match post_classify (responses 1) with
      | .succeed => (ApiResult.ok 1, ([] : List Nat))
      | .failUnauthorized => (ApiResult.unauthorized 1, [])
      | .failNotFound => (ApiResult.notFound 1, [])
      | .retry => apiLoop post_classify responses 2 2 2000 [1000]) = _
    rw [h]
    rfl
  · show (match delete_classify (responses 1) with
      | .succeed => (ApiResult.ok 1, ([] : List Nat))
      | .failUnauthorized => (ApiResult.unauthorized 1, [])
      | .failNotFound => (ApiResult.notFound 1, [])
      | .retry => apiLoop delete_classify responses 2 2 2000 [1000]) = _
    rw [h]
    rfl
  · rw [show listener_run (Except.ok ()) ticks = run_ticks ticks from rfl, run_ticks_ok ticks]
    rfl

/-- C6 witness: the three client operations evaluated on responses that always
answer 401 fail at attempt 1 with no sleeps, while a run over one tick whose
dispatch phase carries the 401 error still ends with `Ok` and exit code 0. -/
theorem unauthorized_policy_witness :
    (ghGet (fun _ => Outcome.status 401) = (ApiResult.unauthorized 1, [])
      ∧ ghPost (fun _ => Outcome.status 401) = (ApiResult.unauthorized 1, [])
      ∧ ghDelete (fun _ => Outcome.status 401) = (ApiResult.unauthorized 1, []))
    ∧ listener_run (Except.ok ())
        [(Except.ok (), Except.error "GitHub API unauthorized - check token")]
        = Except.ok ()
    ∧ main_exit_code (listener_run (Except.ok ())
        [(Except.ok (), Except.error "GitHub API unauthorized - check token")]) = 0 :=
  ⟨(unauthorized_policy (fun _ => Outcome.status 401) []).1 rfl,
   (unauthorized_policy (fun _ => Outcome.status 401)
      [(Except.ok (), Except.error "GitHub API unauthorized - check token")]).2.1,
   (unauthorized_policy (fun _ => Outcome.status 401)
      [(Except.ok (), Except.error "GitHub API unauthorized - check token")]).2.2⟩

/-! ## Dispatch loop helper lemmas -/

theorem process_jobs_counts (m : Nat) (ls ex : List String) (ok : Nat → Bool) (now : Nat) :
    ∀ (jobs : List Job) (s : DispatchState),
      (process_jobs m ls ex ok now s jobs).containers.length + s.launched.length
          = s.containers.length + (process_jobs m ls ex ok now s jobs).launched.length
      ∧ (s.containers.length ≤ m →
          (process_jobs m ls ex ok now s jobs).containers.length ≤ m) := by
  intro jobs
  induction jobs with
  | nil =>
    intro s
    exact ⟨rfl, fun h => h⟩
  | cons job rest ih =>
    intro s
    simp only [process_jobs]
    split_ifs with h1 h2 h3 h4 h5 h6 h7
    · omega
    · exact ih s
    · exact ih s
    · exact ih s
    · exact ih s
    · exact ih s
    · have h := ih ⟨s.containers ++ [job_id_to_container_name job.id],
        put_container s.db (job_id_to_container_name job.id) ⟨job.id, now⟩,
        s.launched ++ [job.id], s.attempts + 1⟩
      simp only [List.length_append, List.length_cons, List.length_nil] at h ⊢
      omega
    · exact ih { s with attempts := s.attempts + 1 }

theorem process_jobs_launch_guard (m : Nat) (ls ex : List String) (ok : Nat → Bool)
    (now : Nat) :
    ∀ (jobs : List Job) (s : DispatchState),
      (∀ j ∈ s.launched, (get_container s.db (job_id_to_container_name j)).isSome = true) →
      s.launched.Nodup →
      ((process_jobs m ls ex ok now s jobs).launched.Nodup
       ∧ ∀ j, j ∈ (process_jobs m ls ex ok now s jobs).launched →
           j ∈ s.launched
           ∨ (job_id_to_container_name j ∉ ex
              ∧ (get_container s.db (job_id_to_container_name j)).isSome = false)) := by
  intro jobs
  induction jobs with
  | nil =>
    intro s hinv hnd
    simp only [process_jobs]
    exact ⟨hnd, fun j hj => Or.inl hj⟩
  | cons job rest ih =>
    intro s hinv hnd
    simp only [process_jobs]
    split_ifs with h1 h2 h3 h4 h5 h6 h7
    · exact ⟨hnd, fun j hj => Or.inl hj⟩
    · exact ih s hinv hnd
    · exact ih s hinv hnd
    · exact ih s hinv hnd
    · exact ih s hinv hnd
    · exact ih s hinv hnd
    · -- successful launch of `job`
      have h6' : (get_container s.db (job_id_to_container_name job.id)).isSome = false := by
        simpa using h6
      have hnotin : job.id ∉ s.launched := by
        intro hmem
        have := hinv job.id hmem
        rw [h6'] at this
        exact Bool.false_ne_true this
      have hinv' : ∀ j ∈ s.launched ++ [job.id],
          (get_container
            (put_container s.db (job_id_to_container_name job.id) ⟨job.id, now⟩)
            (job_id_to_container_name j)).isSome = true := by
        intro j hj
        rcases List.mem_append.1 hj with hl | hr
        · by_cases hn : job_id_to_container_name j = job_id_to_container_name job.id
          · rw [hn, get_put_self]
            rfl
          · rw [get_put_other _ _ _ _ hn]
            exact hinv j hl
        · have hjid : j = job.id := List.mem_singleton.1 hr
          subst hjid
          rw [get_put_self]
          rfl
      have hnd' : (s.launched ++ [job.id]).Nodup := by
        rw [List.nodup_append]
        exact ⟨hnd, List.nodup_singleton _, by simpa using hnotin⟩
      obtain ⟨hnodup, hmem⟩ := ih ⟨s.containers ++ [job_id_to_container_name job.id],
        put_container s.db (job_id_to_container_name job.id) ⟨job.id, now⟩,
        s.launched ++ [job.id], s.attempts + 1⟩ hinv' hnd'
      refine ⟨hnodup, fun j hj => ?_⟩
      rcases hmem j hj with hin | ⟨hex, hfalse⟩
      · rcases List.mem_append.1 hin with hl | hr
        · exact Or.inl hl
        · have hjid : j = job.id := List.mem_singleton.1 hr
          subst hjid
          exact Or.inr ⟨h5, h6'⟩
      · refine Or.inr ⟨hex, ?_⟩
        by_cases hn : job_id_to_container_name j = job_id_to_container_name job.id
        · rw [hn, get_put_self] at hfalse
          exact absurd hfalse (by simp)
        · rw [get_put_other _ _ _ _ hn] at hfalse
          exact hfalse
    · exact ih { s with attempts := s.attempts + 1 } hinv hnd

/-! ## C1 — the concurrency cap bounds every dispatch phase -/

/-- C1: with the cap respected at the start of the tick, the dispatch phase
ends with `count_active() ≤ max_concurrent`: the phase is skipped entirely
(returning the world unchanged, zero launches) when the count is already at or
above the cap; the count, re-checked before each candidate, bounds the result;
and the number of launches of the tick never exceeds
`max_concurrent - (initial active count)`. -/
theorem phase2_concurrency_bound (m : Nat) (ls : List String) (ok : Nat → Bool)
    (now : Nat) (w : World) (jobs : List Job) (hinit : w.containers.length ≤ m) :
    (process_queued_jobs m ls ok now w jobs).containers.length ≤ m
    ∧ (process_queued_jobs m ls ok now w jobs).launched.length ≤ m - w.containers.length
    ∧ (m ≤ w.containers.length →
        process_queued_jobs m ls ok now w jobs = ⟨w.containers, w.db, [], 0⟩) := by
  unfold process_queued_jobs
  by_cases hcap : m ≤ w.containers.length
  · rw [if_pos hcap]
    exact ⟨hinit, by simp, fun _ => rfl⟩
  · rw [if_neg hcap]
    have h := process_jobs_counts m ls w.containers ok now jobs ⟨w.containers, w.db, [], 0⟩
    have he := h.1
    have hb := h.2 hinit
    simp only [List.length_nil] at he
    exact ⟨hb, by omega, fun hm => absurd hm hcap⟩

/-- C1 witness: spec scenario 3 — cap 2, empty initial inventory, three
eligible queued jobs: the dispatch phase ends under the cap, launching at most
2 sandboxes. -/
theorem phase2_concurrency_bound_witness :
    (process_queued_jobs 2 ["self-hosted"] (fun _ => true) 0 ⟨[], []⟩
        [⟨1, "queued", ["self-hosted"], none⟩, ⟨2, "queued", ["self-hosted"], none⟩,
         ⟨3, "queued", ["self-hosted"], none⟩]).containers.length ≤ 2
    ∧ (process_queued_jobs 2 ["self-hosted"] (fun _ => true) 0 ⟨[], []⟩
        [⟨1, "queued", ["self-hosted"], none⟩, ⟨2, "queued", ["self-hosted"], none⟩,
         ⟨3, "queued", ["self-hosted"], none⟩]).launched.length ≤ 2
    ∧ (2 ≤ 0 →
        process_queued_jobs 2 ["self-hosted"] (fun _ => true) 0 ⟨[], []⟩
          [⟨1, "queued", ["self-hosted"], none⟩, ⟨2, "queued", ["self-hosted"], none⟩,
           ⟨3, "queued", ["self-hosted"], none⟩] = ⟨[], [], [], 0⟩) :=
  phase2_concurrency_bound 2 ["self-hosted"] (fun _ => true) 0 ⟨[], []⟩
    [⟨1, "queued", ["self-hosted"], none⟩, ⟨2, "queued", ["self-hosted"], none⟩,
     ⟨3, "queued", ["self-hosted"], none⟩] (by decide)

/-! ## C2 — at most one sandbox is ever launched per job -/

/-- C2: the derived name mapping is injective in the job id; within one
dispatch pass the list of launched job ids has no duplicate (a successful
launch immediately records the name in the State Index, so a second occurrence
of the same job is skipped); and a job whose derived name is already in the
live-inventory snapshot or in the State Index at the start of the pass is
never launched. -/
theorem dispatch_at_most_one_launch (m : Nat) (ls : List String) (ok : Nat → Bool)
    (now : Nat) (w : World) (jobs : List Job) :
    Function.Injective job_id_to_container_name
    ∧ (process_queued_jobs m ls ok now w jobs).launched.Nodup
    ∧ (∀ j, (job_id_to_container_name j ∈ w.containers
          ∨ (get_container w.db (job_id_to_container_name j)).isSome = true) →
        j ∉ (process_queued_jobs m ls ok now w jobs).launched) := by
  refine ⟨job_id_to_container_name_injective, ?_⟩
  unfold process_queued_jobs
  by_cases hcap : m ≤ w.containers.length
  · rw [if_pos hcap]
    exact ⟨List.nodup_nil, fun j _ hj => absurd hj (List.not_mem_nil j)⟩
  · rw [if_neg hcap]
    have h := process_jobs_launch_guard m ls w.containers ok now jobs
      ⟨w.containers, w.db, [], 0⟩ (by simp) List.nodup_nil
    refine ⟨h.1, fun j hj hlaunch => ?_⟩
    rcases h.2 j hlaunch with hin | ⟨hex, hfalse⟩
    · exact absurd hin (List.not_mem_nil j)
    · rcases hj with hmem | hsome
      · exact hex hmem
      · rw [hsome] at hfalse
        simp at hfalse

/-- C2 witness: a job whose sandbox name is already in the live inventory is
not launched again, and a candidate list repeating job 6 launches it only
once. -/
theorem dispatch_at_most_one_launch_witness :
    (5 : Nat) ∉ (process_queued_jobs 4 [] (fun _ => true) 0
        ⟨["ci-runner-5"], []⟩ [⟨5, "queued", [], none⟩]).launched
    ∧ (process_queued_jobs 4 [] (fun _ => true) 0 ⟨[], []⟩
        [⟨6, "queued", [], none⟩, ⟨6, "queued", [], none⟩]).launched.Nodup :=
  ⟨(dispatch_at_most_one_launch 4 [] (fun _ => true) 0 ⟨["ci-runner-5"], []⟩
      [⟨5, "queued", [], none⟩]).2.2 5 (Or.inl (by decide)),
   (dispatch_at_most_one_launch 4 [] (fun _ => true) 0 ⟨[], []⟩
      [⟨6, "queued", [], none⟩, ⟨6, "queued", [], none⟩]).2.1⟩

/-! ## C8 — shape and content of `GET /status` -/

theorem list_containers_serialized (entries : List (String × ContainerState)) :
    list_containers (entries.map fun e => (e.1, serializeState e.2)) = .ok entries := by
  induction entries with
  | nil => rfl
  | cons hd tl ih =>
    obtain ⟨n, st⟩ := hd
    simp only [List.map_cons, list_containers, deserialize_serialize, ih]

/-- C8: on a successful listing, `GET /status` answers 200 OK with a
`StatusResponse` whose `active_containers` carry, for each persisted record,
the sandbox name, the record's job id in the `job_id` field, and the elapsed
seconds since `started_at` in `running_seconds`, alongside `max_concurrent`,
`poll_interval_seconds`, `job_timeout_seconds` and `uptime_seconds`. -/
theorem status_ok_shape (st : AppState) (entries : List (String × ContainerState))
    (now uptime : Nat) :
    statusHandler st (entries.map fun e => (e.1, serializeState e.2)) now uptime =
      StatusReply.ok
        { active_containers := entries.map fun e =>
            { name := e.1, job_id := e.2.slot, running_seconds := now - e.2.started_at },
          max_concurrent := st.max_concurrent,
          poll_interval_seconds := st.poll_interval_seconds,
          job_timeout_seconds := st.job_timeout_seconds,
          uptime_seconds := uptime } := by
  unfold statusHandler
  rw [list_containers_serialized]
  rfl

end RunnerController
